import Mathlib

/-!
Shallow embedding of `src/scrape.py` (reddit-scraper): the resumable-crawl
core — cursor resolver (`get_earliest_post_timestamp`), post crawl
(`scrape_posts`), comment crawl (`scrape_comments`), and batch writer
(`save_to_database`).

Modelling conventions:
* Unix creation timestamps (`created_utc`) are modelled as `Nat`; Python
  truthiness of a timestamp value (`if result:`, `if earliest_post_timestamp`)
  is `≠ 0` on `some`, false on `none`.
* The external listing source is a `List` of items in the order the source
  yields them; the sink table is an explicit state.
* Python exceptions are modelled explicitly: the cursor query outcome is a
  sum of success and `SQLAlchemyError`; the listing iterator may raise at an
  item; commit attempts fail according to a schedule `Nat → Bool` indexed by
  attempt number. `save_to_database` catches every exception internally
  (lines 184–187 of the source), so it returns a state in all cases.
-/

namespace Scrape

/-- A post as exposed by the listing source (fields read at
`src/scrape.py` lines 93–104). `author` is `none` when deleted/removed. -/
structure Post where
  id : String
  title : String
  selftext : String
  author : Option String
  score : Int
  created_utc : Nat
  permalink : String
  num_comments : Nat
  url : String
  subreddit : String
deriving Repr, DecidableEq, BEq

/-- The object returned by the API client's `comment.parent()` accessor:
for a reply it is the parent comment, for a top-level comment it is the
owning post (submission) object. Both carry an `id`. -/
inductive ParentObj where
  | postObj (id : String)
  | commentObj (id : String)
deriving Repr, DecidableEq, BEq

/-- The identifier carried by a parent object. -/
def ParentObj.pid : ParentObj → String
  | .postObj i => i
  | .commentObj i => i

/-- A comment as exposed by the listing source (fields read at
`src/scrape.py` lines 150–157). `parent` is the value of
`comment.parent()`; `none` models a falsy return, which the API client does
not actually produce (a top-level comment's parent is the truthy post
object), but the source's line 157 guards on it, so the model keeps it. -/
structure Comment where
  id : String
  body : String
  author : Option String
  score : Int
  created_utc : Nat
  permalink : String
  parent : Option ParentObj
deriving Repr, DecidableEq, BEq

/-- A comment is top-level when its parent is the post itself rather than
another comment (`comment.parent()` yields the submission object). -/
def Comment.isTopLevel (c : Comment) : Bool :=
  match c.parent with
  | some (.postObj _) => true
  | some (.commentObj _) => false
  | none => true

/-- The dict appended per post by `scrape_posts` (lines 93–104). -/
structure PostRow where
  post_id : String
  post_title : String
  post_body : String
  post_author : Option String
  post_score : Int
  post_created_utc : Nat
  post_permalink : String
  post_num_comments : Nat
  post_url : String
  post_subreddit : String
deriving Repr, DecidableEq, BEq

/-- The dict appended per comment by `scrape_comments` (lines 149–158).
Note it carries the owning post only through `post_id`; no other post
field is included. -/
structure CommentRow where
  comment_id : String
  comment_body : String
  comment_author : Option String
  comment_score : Int
  comment_created_utc : Nat
  comment_permalink : String
  post_id : String
  parent_comment_id : Option String
deriving Repr, DecidableEq, BEq

/-- Flattening of one post for the posts table (`scrape_posts` lines
93–104): `post.author.name if post.author else None`. -/
def postRowOf (p : Post) : PostRow :=
  { post_id := p.id
    post_title := p.title
    post_body := p.selftext
    post_author := p.author
    post_score := p.score
    post_created_utc := p.created_utc
    post_permalink := p.permalink
    post_num_comments := p.num_comments
    post_url := p.url
    post_subreddit := p.subreddit }

/-- Flattening of one comment of a post (`scrape_comments` lines 149–158):
author is `None` when absent, permalink is prefixed with the site URL,
`post_id` links to the owning post, and `parent_comment_id` is
`comment.parent().id if comment.parent() else None`. -/
def commentRowOf (p : Post) (c : Comment) : CommentRow :=
  { comment_id := c.id
    comment_body := c.body
    comment_author := c.author
    comment_score := c.score
    comment_created_utc := c.created_utc
    comment_permalink := "https://www.reddit.com" ++ c.permalink
    post_id := p.id
    parent_comment_id := match c.parent with
      | some par => some par.pid
      | none => none }

/-- The inner loop of `scrape_comments` over `post.comments.list()`
(lines 148–158): one row per comment of the post. -/
def flattenComments (p : Post) (cs : List Comment) : List CommentRow :=
  cs.map (commentRowOf p)

/-! ## Cursor resolver (`get_earliest_post_timestamp`, lines 49–74) -/

/-- One row of the sink table as seen by the cursor query: only the
`post_subreddit` and `post_created_utc` columns are consulted. -/
structure StoredRow where
  post_subreddit : String
  post_created_utc : Nat
deriving Repr, DecidableEq, BEq

/-- The SQL aggregate `SELECT MIN(post_created_utc) FROM
reddit_posts_comments WHERE post_subreddit = :subreddit_name` (lines
57–63): `NULL` (`none`) when no row matches. -/
def sqlMinCreatedUtc (store : List StoredRow) (name : String) : Option Nat :=
  ((store.filter (fun r => r.post_subreddit = name)).map
    (fun r => r.post_created_utc)).min?

/-- Outcome of the cursor query against the sink: the scalar result, or an
`SQLAlchemyError` raised by connectivity/query failure. -/
inductive QueryOutcome where
  | ok (result : Option Nat)
  | sqlError
deriving Repr, DecidableEq

/-- Python truthiness of the query scalar: `None` is falsy and a `0`
timestamp is falsy. -/
def pyTruthy : Option Nat → Bool
  | none => false
  | some v => v != 0

/-- Function `get_earliest_post_timestamp` (lines 49–74): on success, `return
result` if `result` is truthy else `return None`; on `SQLAlchemyError`,
log and `return None`. -/
def get_earliest_post_timestamp (q : QueryOutcome) : Option Nat :=
  match q with
  | .ok result => if pyTruthy result then result else none
  | .sqlError => none

/-- Resolver `get_earliest_post_timestamp` run against an explicit store with the
query succeeding: the scalar is the SQL `MIN` aggregate. -/
def get_earliest_db (store : List StoredRow) (name : String) : Option Nat :=
  get_earliest_post_timestamp (.ok (sqlMinCreatedUtc store name))

/-! ## Batch writer (`save_to_database`, lines 176–187) -/

/-- The sink table plus a count of commit attempts made so far (used to
index the failure schedule). -/
structure SinkState where
  committed : List CommentRow
  attempts : Nat
deriving Repr, DecidableEq

/-- The empty sink. -/
def sink0 : SinkState := ⟨[], 0⟩

/-- Writer `save_to_database` (lines 176–187): `df.to_sql(..., if_exists='append')`
appends the given rows to the table; any `SQLAlchemyError` or other
exception is caught and logged inside the function (lines 184–187), so the
caller observes a normal return either way. `failAt` says whether the k-th
commit attempt fails. -/
def save_to_database (failAt : Nat → Bool) (st : SinkState)
    (rows : List CommentRow) : SinkState :=
  if failAt st.attempts then
    { committed := st.committed, attempts := st.attempts + 1 }
  else
    { committed := st.committed ++ rows, attempts := st.attempts + 1 }

/-! ## Comment crawl (`scrape_comments`, lines 125–172) -/

/-- One item of the listing source for the comment crawl: a post together
with its (already `replace_more`-expanded) comment list. -/
structure SourcePost where
  post : Post
  comments : List Comment
deriving Repr, DecidableEq

/-- The skip test at line 140: `if earliest_post_timestamp and
post.created_utc <= earliest_post_timestamp: continue`. A boundary of
`None` or of `0` is falsy, so nothing is skipped then. -/
def skipPost (boundary : Option Nat) (p : Post) : Bool :=
  match boundary with
  | some b => b != 0 && p.created_utc ≤ b
  | none => false

/-- Observable outcome of one comment-crawl pass. `fetched` lists the ids
of every post pulled from the listing source, `processed` those whose
comments were scraped (not skipped), `sink` the final sink state, and
`returned` the final `comment_data` list the function returns. -/
structure CrawlResult where
  fetched : List String
  processed : List String
  sink : SinkState
  returned : List CommentRow
deriving Repr, DecidableEq

/-- The main loop of `scrape_comments` (lines 139–165). The `for` loop
visits every post of the listing (a skipped post uses `continue`, not
`break`, so iteration proceeds). For a processed post its comment rows are
appended to the running `comment_data` accumulator `acc`, and then the
ENTIRE accumulator is flushed: line 165 is
`save_to_database(pd.DataFrame(comment_data))`. -/
def crawlComments (failAt : Nat → Bool) (boundary : Option Nat) :
    List SourcePost → List CommentRow → SinkState → CrawlResult
  | [], acc, st => ⟨[], [], st, acc⟩
  | sp :: rest, acc, st =>
    if skipPost boundary sp.post then
      let r := crawlComments failAt boundary rest acc st
      { r with fetched := sp.post.id :: r.fetched }
    else
      let acc2 := acc ++ flattenComments sp.post sp.comments
      let st2 := save_to_database failAt st acc2
      let r := crawlComments failAt boundary rest acc2 st2
      { r with fetched := sp.post.id :: r.fetched
               processed := sp.post.id :: r.processed }

/-- One pass of `scrape_comments` with an explicit boundary, starting from
an empty `comment_data` list and the given sink. -/
def scrapeCommentsRun (failAt : Nat → Bool) (boundary : Option Nat)
    (source : List SourcePost) (st : SinkState) : CrawlResult :=
  crawlComments failAt boundary source [] st

/-- Function `scrape_comments` (lines 125–172): resolve the boundary from the sink
via `get_earliest_post_timestamp`, then crawl the listing. -/
def scrape_comments (failAt : Nat → Bool) (store : List StoredRow)
    (name : String) (source : List SourcePost) (st : SinkState) : CrawlResult :=
  scrapeCommentsRun failAt (get_earliest_db store name) source st

/-! ## Post crawl (`scrape_posts`, lines 78–121) -/

/-- One fetch from the listing iterator in `scrape_posts`: either a post,
or an exception raised while iterating the listing. -/
inductive FetchItem where
  | ok (p : Post)
  | raised
deriving Repr, DecidableEq

/-- Observable outcome of one `scrape_posts` pass: the rows the function
returns, and the row batches committed to the sink (each element one
`save_to_database` call). -/
structure PostsResult where
  returned : List PostRow
  commits : List (List PostRow)
deriving Repr, DecidableEq

/-- The accumulation loop of `scrape_posts` (lines 89–108): collect one
`PostRow` per post; an exception raised by the iterator propagates
(`none`), abandoning the rows collected so far. -/
def collectPosts : List FetchItem → Option (List PostRow)
  | [] => some []
  | .ok p :: rest => (collectPosts rest).map (fun rs => postRowOf p :: rs)
  | .raised :: _ => none

/-- Function `scrape_posts` (lines 78–121): the whole loop runs inside one `try`;
only after the listing is exhausted is the single `save_to_database(post_df)`
issued (line 114) and the DataFrame returned (line 117). Any exception
reaches the `except` (lines 119–121), which logs and returns an empty
DataFrame — with no commit ever attempted. -/
def scrape_posts (source : List FetchItem) : PostsResult :=
  match collectPosts source with
  | some rows => { returned := rows, commits := [rows] }
  | none => { returned := [], commits := [] }

/-! ## Concrete demonstration inputs -/

/-- A concrete post with the given id and creation timestamp. -/
def mkPost (i : String) (ts : Nat) : Post :=
  { id := i, title := "title " ++ i, selftext := "", author := some "alice"
    score := 1, created_utc := ts, permalink := "/r/demo/" ++ i
    num_comments := 1, url := "https://example.com", subreddit := "demo" }

/-- A concrete comment with the given id, timestamp and parent object. -/
def mkComment (i : String) (ts : Nat) (par : Option ParentObj) : Comment :=
  { id := i, body := "body " ++ i, author := some "bob", score := 2
    created_utc := ts, permalink := "/r/demo/c/" ++ i, parent := par }

/-- Demo post `p1` (timestamp 200). -/
def demoP1 : Post := mkPost "p1" 200

/-- Demo post `p2` (timestamp 150). -/
def demoP2 : Post := mkPost "p2" 150

/-- Demo top-level comment on `p1`: its `parent()` is the post object. -/
def demoC1 : Comment := mkComment "c1" 201 (some (.postObj "p1"))

/-- Demo top-level comment on `p2`. -/
def demoC2 : Comment := mkComment "c2" 151 (some (.postObj "p2"))

/-- A two-post listing, one comment each, newest first. -/
def demoSource2 : List SourcePost := [⟨demoP1, [demoC1]⟩, ⟨demoP2, [demoC2]⟩]

/-- A listing with strictly decreasing timestamps 100, 90, 80, 70. -/
def demoSourceTs : List SourcePost :=
  [⟨mkPost "p100" 100, []⟩, ⟨mkPost "p90" 90, []⟩,
   ⟨mkPost "p80" 80, []⟩, ⟨mkPost "p70" 70, []⟩]

/-- Post `demoP1` with only the title changed. -/
def demoP1title : Post := { demoP1 with title := "another title" }

/-- Comment `demoC1` with its author deleted. -/
def demoCNoAuthor : Comment := { demoC1 with author := none }

/-- Post `demoP1` with its author deleted. -/
def demoPNoAuthor : Post := { demoP1 with author := none }

end Scrape

namespace Scrape

/-! ## Helper lemmas about the crawl loop -/

/-- Helper: one commit attempt always advances the attempt counter by one,
whether it fails or not. -/
theorem save_to_database_attempts (failAt : Nat → Bool) (st : SinkState)
    (rows : List CommentRow) :
    (save_to_database failAt st rows).attempts = st.attempts + 1 := by
  unfold save_to_database; split <;> rfl

/-- Helper: with a truthy boundary `b`, the crawl loop fetches every item
of the listing, processes exactly those strictly newer than `b`, and
returns the accumulator extended by their flattened comment rows — for any
starting accumulator, sink state and commit-failure schedule. -/
theorem crawlComments_truthy_boundary (failAt : Nat → Bool) (b : Nat) (hb : b ≠ 0)
    (src : List SourcePost) : ∀ (acc : List CommentRow) (st : SinkState),
    (crawlComments failAt (some b) src acc st).fetched
      = src.map (fun sp => sp.post.id) ∧
    (crawlComments failAt (some b) src acc st).processed
      = (src.filter (fun sp => b < sp.post.created_utc)).map (fun sp => sp.post.id) ∧
    (crawlComments failAt (some b) src acc st).returned
      = acc ++ ((src.filter (fun sp => b < sp.post.created_utc)).map
          (fun sp => flattenComments sp.post sp.comments)).flatten := by
  induction src with
  | nil => intro acc st; simp [crawlComments]
  | cons sp rest ih =>
    intro acc st
    by_cases h : sp.post.created_utc ≤ b
    · have hskip : skipPost (some b) sp.post = true := by
        simp [skipPost, h, hb]
      simp [crawlComments, hskip, List.filter_cons, Nat.not_lt.mpr h, ih]
    · have hskip : skipPost (some b) sp.post = false := by
        simp [skipPost, h]
      simp [crawlComments, hskip, List.filter_cons, Nat.lt_of_not_le h, ih]

/-- Helper: the crawl driver's control flow and output are independent of
the commit-failure schedule and the starting sink state: `save_to_database`
returns normally in all cases, so which commits fail cannot influence what
is fetched, processed or returned. -/
theorem crawlComments_failAt_indep (boundary : Option Nat)
    (src : List SourcePost) : ∀ (acc : List CommentRow)
    (st1 st2 : SinkState) (f1 f2 : Nat → Bool),
    (crawlComments f1 boundary src acc st1).fetched
      = (crawlComments f2 boundary src acc st2).fetched ∧
    (crawlComments f1 boundary src acc st1).processed
      = (crawlComments f2 boundary src acc st2).processed ∧
    (crawlComments f1 boundary src acc st1).returned
      = (crawlComments f2 boundary src acc st2).returned := by
  induction src with
  | nil => intro acc st1 st2 f1 f2; simp [crawlComments]
  | cons sp rest ih =>
    intro acc st1 st2 f1 f2
    cases h : skipPost boundary sp.post
    · have hrec := ih (acc ++ flattenComments sp.post sp.comments)
        (save_to_database f1 st1 (acc ++ flattenComments sp.post sp.comments))
        (save_to_database f2 st2 (acc ++ flattenComments sp.post sp.comments)) f1 f2
      simp [crawlComments, h, hrec.1, hrec.2.1, hrec.2.2]
    · have hrec := ih acc st1 st2 f1 f2
      simp [crawlComments, h, hrec.1, hrec.2.1, hrec.2.2]

/-- Helper: across one crawl pass, the number of commit attempts equals the
number of processed posts — one flush per processed post, regardless of
failures. -/
theorem crawlComments_attempts (failAt : Nat → Bool) (boundary : Option Nat)
    (src : List SourcePost) : ∀ (acc : List CommentRow) (st : SinkState),
    (crawlComments failAt boundary src acc st).sink.attempts
      = st.attempts + (crawlComments failAt boundary src acc st).processed.length := by
  induction src with
  | nil => intro acc st; simp [crawlComments]
  | cons sp rest ih =>
    intro acc st
    cases h : skipPost boundary sp.post
    · simp [crawlComments, h, ih, save_to_database_attempts]
      omega
    · simp [crawlComments, h, ih]

/-- Helper: with no boundary (`None`), nothing is skipped: every item of
the listing is fetched and processed. -/
theorem crawlComments_none_boundary (failAt : Nat → Bool)
    (src : List SourcePost) : ∀ (acc : List CommentRow) (st : SinkState),
    (crawlComments failAt none src acc st).processed
      = src.map (fun sp => sp.post.id) ∧
    (crawlComments failAt none src acc st).fetched
      = src.map (fun sp => sp.post.id) := by
  induction src with
  | nil => intro acc st; simp [crawlComments]
  | cons sp rest ih => intro acc st; simp [crawlComments, skipPost, ih]

/-- Helper: `collectPosts` fails exactly when the listing iterator raises
somewhere, and succeeds otherwise. -/
theorem collectPosts_raised (source : List FetchItem) :
    (FetchItem.raised ∈ source → collectPosts source = none) ∧
    (FetchItem.raised ∉ source → ∃ rows, collectPosts source = some rows) := by
  induction source with
  | nil => simp [collectPosts]
  | cons it rest ih =>
    cases it with
    | ok p =>
      constructor
      · intro h
        have hm : FetchItem.raised ∈ rest := by
          rcases List.mem_cons.mp h with h1 | h2
          · exact absurd h1 (by simp)
          · exact h2
        simp [collectPosts, ih.1 hm]
      · intro h
        have hr : FetchItem.raised ∉ rest := fun hm => h (List.mem_cons_of_mem _ hm)
        obtain ⟨rows, hrows⟩ := ih.2 hr
        exact ⟨postRowOf p :: rows, by simp [collectPosts, hrows]⟩
    | raised =>
      refine ⟨fun _ => rfl, fun h => absurd (List.mem_cons_self _ _) h⟩

/-! ## Claim theorems -/

/-- C1: one pass of `scrape_comments` over two posts with one comment each,
no boundary, every commit succeeding. The pass observes comment `c1` once,
yet the sink ends up holding its row twice: line 165 flushes the entire
cumulative `comment_data` list after every post, so the first post's rows
are re-committed by each later flush. This contradicts the claim that each
flush commits only rows no earlier flush of the pass has committed. -/
theorem C1_duplicate_reflush :
    ((scrapeCommentsRun (fun _ => false) none demoSource2 sink0).sink.committed.count
      (commentRowOf demoP1 demoC1)) = 2 ∧
    ((scrapeCommentsRun (fun _ => false) none demoSource2 sink0).returned.count
      (commentRowOf demoP1 demoC1)) = 1 := by decide

/-- C2: `get_earliest_post_timestamp` returns `None` on a query error
(`except SQLAlchemyError` at lines 72–74), the very same value it returns
when no rows exist for the key — the two outcomes are conflated, not
surfaced distinctly as the claim states. -/
theorem C2_error_conflated :
    get_earliest_post_timestamp .sqlError = none ∧
    get_earliest_post_timestamp (.ok none) = none ∧
    get_earliest_post_timestamp .sqlError = get_earliest_post_timestamp (.ok none) := by
  exact ⟨rfl, rfl, rfl⟩

/-- C3 counterexample: with listing timestamps `[100, 90, 80, 70]` and
boundary `85`, the crawl does process exactly the items at 100 and 90, but
it does NOT stop fetching: line 140 uses `continue`, so the items at 80 and
70 are still pulled from the source, refuting the claim that the crawl
halts and fetches no further items past the boundary. -/
theorem C3_counterexample :
    (scrapeCommentsRun (fun _ => false) (some 85) demoSourceTs sink0).processed
      = ["p100", "p90"] ∧
    (scrapeCommentsRun (fun _ => false) (some 85) demoSourceTs sink0).fetched
      = ["p100", "p90", "p80", "p70"] := by decide

/-- C4 counterexample: with the first commit attempt failing, the pass does
not halt — `save_to_database` swallows the error (lines 184–187), the
driver processes the second post and issues a second commit attempt, which
succeeds and writes rows. This refutes the claim that a commit failure is
reported to the crawl driver and the pass halts. -/
theorem C4_counterexample :
    (scrapeCommentsRun (fun k => k == 0) none demoSource2 sink0).processed
      = ["p1", "p2"] ∧
    (scrapeCommentsRun (fun k => k == 0) none demoSource2 sink0).sink.attempts = 2 ∧
    (scrapeCommentsRun (fun k => k == 0) none demoSource2 sink0).sink.committed ≠ [] := by
  decide

/-- C5 counterexample: a key with one persisted row whose creation
timestamp is `0` has minimum `0`, but the resolver returns `none` (the
no-boundary value) instead of that minimum, because `if result:` treats the
`0` scalar as falsy (line 67). -/
theorem C5_counterexample :
    sqlMinCreatedUtc [⟨"a", 0⟩] "a" = some 0 ∧
    get_earliest_db [⟨"a", 0⟩] "a" = none := by decide

/-- C6 counterexample: `demoC1` is a top-level comment (its `parent()` is
the owning post object), yet its flattened row's `parent_comment_id` is
`some "p1"` — the post's id, not `null`. Line 157 stores `parent().id`
whenever the parent object is truthy, and the post object is truthy. -/
theorem C6_counterexample :
    demoC1.isTopLevel = true ∧
    (commentRowOf demoP1 demoC1).parent_comment_id = some "p1" := by decide

/-- C7 counterexample: two posts that differ only in their title produce
identical flattened comment rows — the rows do not carry the union of the
post's fields (only `post_id` is included), refuting the claim. -/
theorem C7_counterexample :
    demoP1.title ≠ demoP1title.title ∧
    flattenComments demoP1 [demoC1] = flattenComments demoP1title [demoC1] := by decide

/-- C3 (amended): with a present (truthy) boundary, the comment crawl emits
exactly the items strictly newer than the boundary — their posts are
processed in listing order and their flattened comment rows are returned —
but it does not halt at the boundary: every item of the listing is still
fetched from the source (line 140 skips with `continue` rather than
breaking out of the loop). -/
theorem C3_amended_emit_without_halt (failAt : Nat → Bool) (b : Nat) (hb : b ≠ 0)
    (source : List SourcePost) (st : SinkState) :
    (scrapeCommentsRun failAt (some b) source st).processed
      = (source.filter (fun sp => b < sp.post.created_utc)).map (fun sp => sp.post.id) ∧
    (scrapeCommentsRun failAt (some b) source st).returned
      = ((source.filter (fun sp => b < sp.post.created_utc)).map
          (fun sp => flattenComments sp.post sp.comments)).flatten ∧
    (scrapeCommentsRun failAt (some b) source st).fetched
      = source.map (fun sp => sp.post.id) := by
  have h := crawlComments_truthy_boundary failAt b hb source [] st
  exact ⟨h.2.1, by simpa using h.2.2, h.1⟩

/-- Witness for C3 (amended) at the spec's own example: timestamps
`[100, 90, 80, 70]`, boundary `85`. -/
theorem C3_amended_emit_without_halt_witness :
    (scrapeCommentsRun (fun _ => false) (some 85) demoSourceTs sink0).processed
      = (demoSourceTs.filter (fun sp => 85 < sp.post.created_utc)).map
          (fun sp => sp.post.id) ∧
    (scrapeCommentsRun (fun _ => false) (some 85) demoSourceTs sink0).returned
      = ((demoSourceTs.filter (fun sp => 85 < sp.post.created_utc)).map
          (fun sp => flattenComments sp.post sp.comments)).flatten ∧
    (scrapeCommentsRun (fun _ => false) (some 85) demoSourceTs sink0).fetched
      = demoSourceTs.map (fun sp => sp.post.id) :=
  C3_amended_emit_without_halt (fun _ => false) 85 (by decide) demoSourceTs sink0

/-- C4 (amended): commit failures are caught and logged inside
`save_to_database` and never reported to the crawl driver: what the pass
fetches, processes and returns is identical under any commit-failure
schedule, and the pass keeps issuing one commit attempt per processed post
after a failure instead of halting. -/
theorem C4_amended_failure_not_reported (failAt : Nat → Bool)
    (boundary : Option Nat) (source : List SourcePost) (st : SinkState) :
    (scrapeCommentsRun failAt boundary source st).fetched
      = (scrapeCommentsRun (fun _ => false) boundary source st).fetched ∧
    (scrapeCommentsRun failAt boundary source st).processed
      = (scrapeCommentsRun (fun _ => false) boundary source st).processed ∧
    (scrapeCommentsRun failAt boundary source st).returned
      = (scrapeCommentsRun (fun _ => false) boundary source st).returned ∧
    (scrapeCommentsRun failAt boundary source st).sink.attempts
      = st.attempts + (scrapeCommentsRun failAt boundary source st).processed.length := by
  have h := crawlComments_failAt_indep boundary source [] st st failAt (fun _ => false)
  have h2 := crawlComments_attempts failAt boundary source [] st
  exact ⟨h.1, h.2.1, h.2.2, h2⟩

/-- C5 (amended): with the cursor query succeeding, the resolver returns
the no-boundary value (not an error) when no rows exist for the key;
when rows exist it returns exactly the minimum stored creation timestamp
for that key — unless that minimum is `0` (a falsy scalar), in which case
it returns the no-boundary value; and rows stored under other partition
keys never affect the result. -/
theorem C5_amended_cursor_resolver (store : List StoredRow) (name : String) :
    (sqlMinCreatedUtc store name = none → get_earliest_db store name = none) ∧
    (∀ m : Nat, sqlMinCreatedUtc store name = some m →
      get_earliest_db store name = if m = 0 then none else some m) ∧
    (∀ r : StoredRow, r.post_subreddit ≠ name →
      get_earliest_db (r :: store) name = get_earliest_db store name) := by
  refine ⟨fun h => ?_, fun m h => ?_, fun r hr => ?_⟩
  · simp [get_earliest_db, get_earliest_post_timestamp, h, pyTruthy]
  · by_cases hm : m = 0 <;>
      simp [get_earliest_db, get_earliest_post_timestamp, h, pyTruthy, hm]
  · simp [get_earliest_db, sqlMinCreatedUtc, List.filter_cons, hr]

/-- Witness for C5 (amended): an empty store yields no boundary; a store
with one row at timestamp 5 yields boundary 5; prepending a row of a
different key changes nothing. -/
theorem C5_amended_cursor_resolver_witness :
    get_earliest_db [] "demo" = none ∧
    get_earliest_db [⟨"demo", 5⟩] "demo" = some 5 ∧
    get_earliest_db [⟨"other", 3⟩, ⟨"demo", 5⟩] "demo"
      = get_earliest_db [⟨"demo", 5⟩] "demo" := by
  refine ⟨(C5_amended_cursor_resolver [] "demo").1 (by decide), ?_, ?_⟩
  · have h := (C5_amended_cursor_resolver [⟨"demo", 5⟩] "demo").2.1 5 (by decide)
    simpa using h
  · exact (C5_amended_cursor_resolver [⟨"demo", 5⟩] "demo").2.2 ⟨"other", 3⟩ (by decide)

/-- C6 (amended): the flattened row's `parent_comment_id` holds the
identifier of whatever object the comment's parent accessor returns — for
a top-level comment that is the owning post object, so the field is the
post's id and non-null; the field is null only when the accessor yields no
object at all. -/
theorem C6_amended_parent_id (p : Post) (c : Comment) :
    (commentRowOf p c).parent_comment_id = Option.map ParentObj.pid c.parent := by
  cases hp : c.parent <;> simp [commentRowOf, hp]

/-- C7 (amended): flattening yields exactly one row per comment of the
post — zero comments give zero rows — and each row carries the comment's
fields together with the owning post's identifier; no other post field
(title, body, author, …) is carried by the row. -/
theorem C7_amended_one_row_per_comment (p : Post) (cs : List Comment) :
    (flattenComments p cs).length = cs.length ∧
    flattenComments p [] = [] ∧
    (∀ r ∈ flattenComments p cs, r.post_id = p.id ∧
      ∃ c ∈ cs, r.comment_id = c.id ∧ r.comment_body = c.body ∧
        r.comment_author = c.author ∧ r.comment_score = c.score ∧
        r.comment_created_utc = c.created_utc) := by
  refine ⟨by simp [flattenComments], rfl, ?_⟩
  intro r hr
  simp only [flattenComments, List.mem_map] at hr
  obtain ⟨c, hc, rfl⟩ := hr
  exact ⟨rfl, c, hc, rfl, rfl, rfl, rfl, rfl⟩

/-- Witness for C7 (amended) on a one-comment post. -/
theorem C7_amended_one_row_per_comment_witness :
    (flattenComments demoP1 [demoC1]).length = 1 ∧
    (commentRowOf demoP1 demoC1).post_id = demoP1.id :=
  ⟨(C7_amended_one_row_per_comment demoP1 [demoC1]).1,
   ((C7_amended_one_row_per_comment demoP1 [demoC1]).2.2
      (commentRowOf demoP1 demoC1) (by simp [flattenComments])).1⟩

/-- C8: a post or comment whose author is absent (deleted/removed) is
flattened with the absent-value sentinel (`None`/SQL `NULL`) in the author
column; flattening is a total function, so no error is raised for the
missing field. -/
theorem C8_missing_author_sentinel (p : Post) (c : Comment) (q : Post)
    (hc : c.author = none) (hq : q.author = none) :
    (commentRowOf p c).comment_author = none ∧
    (postRowOf q).post_author = none := by
  simp [commentRowOf, postRowOf, hc, hq]

/-- Witness for C8 on a deleted-author comment and post. -/
theorem C8_missing_author_sentinel_witness :
    (commentRowOf demoP1 demoCNoAuthor).comment_author = none ∧
    (postRowOf demoPNoAuthor).post_author = none :=
  C8_missing_author_sentinel demoP1 demoCNoAuthor demoPNoAuthor rfl rfl

/-- C9: `scrape_posts` commits through exactly one bulk write issued after
the listing is exhausted, so if the iterator raises at any point the pass
commits nothing and the function returns the empty result; if nothing
raises, the single commit is exactly the returned rows. -/
theorem C9_single_bulk_commit (source : List FetchItem) :
    (FetchItem.raised ∈ source → scrape_posts source = ⟨[], []⟩) ∧
    (FetchItem.raised ∉ source →
      (scrape_posts source).commits = [(scrape_posts source).returned]) := by
  constructor
  · intro h
    simp [scrape_posts, (collectPosts_raised source).1 h]
  · intro h
    obtain ⟨rows, hrows⟩ := (collectPosts_raised source).2 h
    simp [scrape_posts, hrows]

/-- Witness for C9: a listing that raises after one post commits nothing
and returns nothing; a clean one-post listing commits its returned rows
once. -/
theorem C9_single_bulk_commit_witness :
    scrape_posts [FetchItem.ok demoP1, FetchItem.raised] = ⟨[], []⟩ ∧
    (scrape_posts [FetchItem.ok demoP1]).commits
      = [(scrape_posts [FetchItem.ok demoP1]).returned] :=
  ⟨(C9_single_bulk_commit [FetchItem.ok demoP1, FetchItem.raised]).1 (by simp),
   (C9_single_bulk_commit [FetchItem.ok demoP1]).2 (by simp)⟩

/-- C10: when the minimum stored timestamp for the subreddit is `0` (a
falsy scalar), `get_earliest_post_timestamp` returns `None` — the same
value as the no-rows case — and `scrape_comments` consequently treats the
boundary as absent: every item of the listing is fetched and processed, a
full re-crawl. -/
theorem C10_falsy_boundary_full_recrawl (store : List StoredRow) (name : String)
    (failAt : Nat → Bool) (source : List SourcePost) (st : SinkState)
    (h : sqlMinCreatedUtc store name = some 0) :
    get_earliest_db store name = none ∧
    (scrape_comments failAt store name source st).processed
      = source.map (fun sp => sp.post.id) ∧
    (scrape_comments failAt store name source st).fetched
      = source.map (fun sp => sp.post.id) := by
  have hg : get_earliest_db store name = none := by
    simp [get_earliest_db, get_earliest_post_timestamp, h, pyTruthy]
  have hc := crawlComments_none_boundary failAt source [] st
  refine ⟨hg, ?_, ?_⟩
  · simpa [scrape_comments, scrapeCommentsRun, hg] using hc.1
  · simpa [scrape_comments, scrapeCommentsRun, hg] using hc.2

/-- Witness for C10: a store holding one row for the key at timestamp 0
yields no boundary, and the crawl over the two-post listing processes both
posts. -/
theorem C10_falsy_boundary_full_recrawl_witness :
    get_earliest_db [⟨"demo", 0⟩] "demo" = none ∧
    (scrape_comments (fun _ => false) [⟨"demo", 0⟩] "demo" demoSource2 sink0).processed
      = demoSource2.map (fun sp => sp.post.id) ∧
    (scrape_comments (fun _ => false) [⟨"demo", 0⟩] "demo" demoSource2 sink0).fetched
      = demoSource2.map (fun sp => sp.post.id) :=
  C10_falsy_boundary_full_recrawl [⟨"demo", 0⟩] "demo" (fun _ => false)
    demoSource2 sink0 (by decide)

end Scrape
